import Mathlib

/-!
Verification of the derived-metrics and classification logic of the `ms`
stock-data scripts.

The repository consists of three near-duplicate command-line scripts:
  * `src/server/services/yfinanceService.py`       (live data, `get_top_losers`
    and `get_deepseek_info`),
  * `src/server/services/simpleYfinanceService.py` (live prices plus
    synthetic news, `get_top_losers`),
  * `src/server/services/simpleDeepseekService.py` (fully synthetic,
    `get_stock_info`).

This file gives a shallow embedding of the parts of those scripts that
compute something locally: price deltas, percentage change, rounding,
sentiment/risk classification, insight generation, batch
filtering/sorting/truncation, per-symbol error handling, and the CLI
top-level exit behaviour.  External collaborators (the Yahoo Finance
API calls, pandas dataframes, the random number generator, the clock)
are modelled as explicit inputs: a fetched dataframe column becomes a
`List ℚ`, a possibly-raising fetch becomes an `Except` or `Option`
value, and each `random.*` draw becomes a field of an input record.
Python floats are modelled as rationals; Python falsiness of a numeric
or optional value (`if x:`) is modelled as "present and nonzero".
-/

namespace MS

/-- Sentiment labels produced by the classification chains of
`yfinanceService.get_deepseek_info` (lines 253-270) and
`simpleDeepseekService.get_stock_info` (lines 116-131). -/
inductive Sentiment
  | Bearish
  | SlightlyBearish
  | Neutral
  | SlightlyBullish
  | Bullish
deriving DecidableEq, Repr

/-- Risk labels produced alongside the sentiment labels. -/
inductive RiskLevel
  | Medium
  | MediumHigh
  | High
deriving DecidableEq, Repr

/-- The shared sentiment/risk classification chain.  Both
`yfinanceService.py` (lines 254-270) and `simpleDeepseekService.py`
(lines 117-131) initialise the pair to `Neutral`/`Medium` and then run
the same `if`/`elif` ladder on `price_change_percent`, which is
equivalent to this first-match-wins chain with a final `else`. -/
def classify (pct : ℚ) : Sentiment × RiskLevel :=
  if pct < -5 then (.Bearish, .High)
  else if pct < -2 then (.SlightlyBearish, .MediumHigh)
  else if pct > 5 then (.Bullish, .MediumHigh)
  else if pct > 2 then (.SlightlyBullish, .Medium)
  else (.Neutral, .Medium)

/-- The guarded variant used by `yfinanceService.get_deepseek_info`
(line 258): the ladder only runs under `if price_change_percent:`, so a
missing (`None`) or zero percentage keeps the initial
`Neutral`/`Medium` pair. -/
def classifyOpt (pct : Option ℚ) : Sentiment × RiskLevel :=
  match pct with
  | none => (.Neutral, .Medium)
  | some p => if p = 0 then (.Neutral, .Medium) else classify p

/-- Python truthiness of an optional numeric value: `if x:` is true
exactly when the value is present and nonzero (`None` and `0.0` are
falsy). -/
def truthy (x : Option ℚ) : Bool :=
  match x with
  | none => false
  | some v => v ≠ 0

/-- Python's `str.upper()`, character by character. -/
def pyUpper (s : String) : String := String.mk (s.data.map Char.toUpper)

/-- Python's `str.lower()`, character by character. -/
def pyLower (s : String) : String := String.mk (s.data.map Char.toLower)

/-- The price-delta step of `yfinanceService.get_deepseek_info`
(lines 243-248): `price_change` and `price_change_percent` start as
`None` and are filled in only under `if current_price and prev_close:`,
so the division is never executed with a missing or zero divisor. -/
def deepseekDelta (current_price prev_close : Option ℚ) : Option ℚ × Option ℚ :=
  if truthy current_price ∧ truthy prev_close then
    let c := current_price.getD 0
    let p := prev_close.getD 0
    (some (c - p), some ((c - p) / p * 100))
  else (none, none)

/-- One templated insight sentence of
`yfinanceService.get_deepseek_info` (lines 272-310).  Each constructor
stands for one of the English template strings, carrying the numbers
interpolated into it. -/
inductive Insight
  | declined (pct : ℚ)
  | increased (pct : ℚ)
  | volumeUp (chg : ℚ)
  | volumeDown (chg : ℚ)
  | highVolatility (v : ℚ)
  | lowVolatility (v : ℚ)
  | largeCap
  | smallCap
  | fallback
deriving DecidableEq, Repr

/-- The `largeCap`/`smallCap` sentences are the ones that inspect the
market capitalisation. -/
def Insight.aboutMarketCap : Insight → Bool
  | .largeCap => true
  | .smallCap => true
  | _ => false

/-- The `volumeUp`/`volumeDown` sentences are the ones that inspect the
volume column. -/
def Insight.aboutVolume : Insight → Bool
  | .volumeUp _ => true
  | .volumeDown _ => true
  | _ => false

/-- The `highVolatility`/`lowVolatility` sentences are the ones that
inspect the volatility figure. -/
def Insight.aboutVolatility : Insight → Bool
  | .highVolatility _ => true
  | .lowVolatility _ => true
  | _ => false

/-- Price-based insight rule of `get_deepseek_info` (lines 275-280),
guarded by `if price_change_percent:` (truthiness: skipped on `None`
and on an exactly-zero percentage). -/
def priceInsights (price_change_percent : Option ℚ) : List Insight :=
  match price_change_percent with
  | none => []
  | some p =>
    if p = 0 then []
    else if p < 0 then [.declined |p|] else [.increased p]

/-- Volume-based insight rule of `get_deepseek_info` (lines 282-291):
fires only when the `Volume` column exists and the frame is nonempty,
and only for a volume change above 50% or below -30%. -/
def volumeInsights (volumes : Option (List ℚ)) : List Insight :=
  match volumes with
  | none => []
  | some vols =>
    if vols.isEmpty then []
    else
      let avg_volume := vols.sum / vols.length
      let recent_volume := (vols.getLast?).getD 0
      let volume_change := (recent_volume / avg_volume - 1) * 100
      if volume_change > 50 then [.volumeUp volume_change]
      else if volume_change < -30 then [.volumeDown volume_change]
      else []

/-- Volatility insight rule of `get_deepseek_info` (lines 293-298),
guarded by `if volatility:` (truthiness) and the 3%/1% thresholds. -/
def volatilityInsights (volatility : Option ℚ) : List Insight :=
  match volatility with
  | none => []
  | some v =>
    if v = 0 then []
    else if v > 3 then [.highVolatility v]
    else if v < 1 then [.lowVolatility v]
    else []

/-- Market-cap insight rule of `get_deepseek_info` (lines 300-306),
guarded by `if market_cap:` (truthiness) and the $200B/$2B buckets. -/
def capInsights (market_cap : Option ℚ) : List Insight :=
  match market_cap with
  | none => []
  | some m =>
    if m = 0 then []
    else if m > 200000000000 then [.largeCap]
    else if m < 2000000000 then [.smallCap]
    else []

/-- The insight-generation block of `yfinanceService.get_deepseek_info`
(lines 272-310): four independent rules appended in a fixed order
(price move, volume ratio vs. average, volatility, market-cap bucket),
then one generic fallback sentence if fewer than 3 insights
accumulated.  `volumes = none` models a history frame without a
`Volume` column. -/
def mkInsights (price_change_percent : Option ℚ) (volumes : Option (List ℚ))
    (volatility : Option ℚ) (market_cap : Option ℚ) : List Insight :=
  let insights := priceInsights price_change_percent ++ volumeInsights volumes ++
    volatilityInsights volatility ++ capInsights market_cap
  if insights.length < 3 then insights ++ [.fallback] else insights

/-- A news item as reshaped by the scripts (title, url, publishedAt,
source). -/
structure NewsItem where
  title : String
  url : String
  publishedAt : String
  source : String
deriving DecidableEq, Repr

/-- The fields of the `ticker.info` dictionary consumed by
`yfinanceService.get_deepseek_info`; every `.get(key, default)` access
is modelled by an `Option` field plus `getD`. -/
structure TickerInfo where
  shortName : Option String
  previousClose : Option ℚ
  marketCap : Option ℚ
  trailingPE : Option ℚ
  beta : Option ℚ
  industry : Option String
  sector : Option String
  longBusinessSummary : Option String
  fiftyTwoWeekLow : Option ℚ
  fiftyTwoWeekHigh : Option ℚ
deriving DecidableEq, Repr

/-- The `data` payload of a successful `get_deepseek_info` response
(lines 312-336). -/
structure DeepseekData where
  symbol : String
  name : String
  currentPrice : Option ℚ
  previousClose : Option ℚ
  priceChange : Option ℚ
  priceChangePercent : Option ℚ
  industry : String
  sector : String
  marketCap : Option ℚ
  trailingPE : Option ℚ
  beta : Option ℚ
  summary : String
  news : List NewsItem
  volatility : Option ℚ
  fiftyTwoWeekLow : Option ℚ
  fiftyTwoWeekHigh : Option ℚ
  insights : List Insight
  riskLevel : RiskLevel
  sentiment : Sentiment
deriving DecidableEq, Repr

/-- The JSON envelope returned by `get_deepseek_info`: either
`success: true` with a data payload or `success: false` with a
message. -/
inductive DeepseekResult
  | failure (message : String)
  | success (data : DeepseekData)
deriving DecidableEq, Repr

/-- `pandas.Series.pct_change` over the `Close` column: elementwise
`(c_i - c_(i-1)) / c_(i-1)` (the leading `NaN` that pandas inserts is
dropped, as `std` ignores it). -/
def pct_change (closes : List ℚ) : List ℚ :=
  closes.zipWith (fun prev cur => (cur - prev) / prev) closes.tail

/-- `yfinanceService.get_deepseek_info` (lines 189-336).  The external
collaborators are explicit inputs: `info` is `ticker.info` (`none`
models a missing/empty dictionary), `closes` and `volumes` are the
`Close` and `Volume` columns of `ticker.history(period='1mo')`
(`volumes = none` models an absent `Volume` column), `newsFetch` is the
`ticker.news` access (`.error` models an exception, which the inner
handler turns into an empty news list), and `std` is the numeric
library's sample standard deviation. -/
def get_deepseek_info (symbol : String) (info : Option TickerInfo)
    (closes : List ℚ) (volumes : Option (List ℚ))
    (newsFetch : Except Unit (List NewsItem)) (std : List ℚ → ℚ) :
    DeepseekResult :=
  match info with
  | none => .failure ("No information found for " ++ symbol)
  | some ti =>
    if closes.isEmpty then .failure ("No price history found for " ++ symbol)
    else
      let news : List NewsItem :=
        match newsFetch with
        | .ok items => items.take 5
        | .error _ => []
      let name := ti.shortName.getD symbol
      let current_price : Option ℚ := closes.getLast?
      let prev_close : Option ℚ := ti.previousClose
      let delta := deepseekDelta current_price prev_close
      let price_change := delta.1
      let price_change_percent := delta.2
      let volatility : Option ℚ :=
        if 5 < closes.length then some (std (pct_change closes) * 100) else none
      let sr := classifyOpt price_change_percent
      let insights := mkInsights price_change_percent volumes volatility ti.marketCap
      .success {
        symbol := symbol
        name := name
        currentPrice := current_price
        previousClose := prev_close
        priceChange := price_change
        priceChangePercent := price_change_percent
        industry := ti.industry.getD "Unknown"
        sector := ti.sector.getD "Unknown"
        marketCap := ti.marketCap
        trailingPE := ti.trailingPE
        beta := ti.beta
        summary := ti.longBusinessSummary.getD ("No summary available for " ++ name ++ ".")
        news := news
        volatility := volatility
        fiftyTwoWeekLow := ti.fiftyTwoWeekLow
        fiftyTwoWeekHigh := ti.fiftyTwoWeekHigh
        insights := insights
        riskLevel := sr.2
        sentiment := sr.1 }

/-- An entry of the built-in company table of
`simpleDeepseekService.get_stock_info` (lines 21-99): the fixed fields
of one company.  The `price` and `prev_close` values of the Python
dictionary are `random.uniform` draws and are therefore inputs of the
model (`DsDraws`), not table entries. -/
structure CompanyInfo where
  name : String
  industry : String
  sector : String
  market_cap : ℚ
  summary : String
deriving DecidableEq, Repr

/-- The outcomes of every `random.*` call made by one run of
`simpleDeepseekService.get_stock_info`, passed in explicitly:
`price`/`prev_close` are the uniform price draws (from per-company
positive ranges), `default_market_cap` is the `randint` draw used for
symbols outside the table, and the remaining fields feed the
volatility/PE/beta figures and the fabricated news items. -/
structure DsDraws where
  price : ℚ
  prev_close : ℚ
  default_market_cap : ℚ
  volatility : ℚ
  pe_ratio : ℚ
  beta : ℚ
  newsFlip1 : Bool
  newsFlip2 : Bool
  newsFlip3 : Bool
  newsDays1 : ℕ
  newsDays2 : ℕ
  newsDays3 : ℕ
deriving DecidableEq, Repr

/-- The `company_info` table of `simpleDeepseekService.get_stock_info`
(lines 21-85). -/
def company_info : List (String × CompanyInfo) := [
  ("AAPL", CompanyInfo.mk "Apple Inc." "Technology" "Consumer Electronics" 2800000000000 "Apple Inc. designs, manufactures, and markets smartphones, personal computers, tablets, wearables, and accessories worldwide. The company offers iPhone, Mac, iPad, Apple Watch, and related accessories and services."),
  ("MSFT", CompanyInfo.mk "Microsoft Corporation" "Technology" "Software" 2900000000000 "Microsoft Corporation develops, licenses, and supports software, services, devices, and solutions worldwide. The company operates through Productivity and Business Processes, Intelligent Cloud, and More Personal Computing segments."),
  ("GOOGL", CompanyInfo.mk "Alphabet Inc." "Technology" "Internet Content & Information" 2000000000000 "Alphabet Inc. offers various products and platforms in the United States, Europe, the Middle East, Africa, the Asia-Pacific, Canada, and Latin America. It operates through Google Services, Google Cloud, and Other Bets segments."),
  ("AMZN", CompanyInfo.mk "Amazon.com, Inc." "Consumer Cyclical" "Internet Retail" 1900000000000 "Amazon.com, Inc. engages in the retail sale of consumer products and subscriptions through online and physical stores in North America and internationally. It operates through North America, International, and Amazon Web Services (AWS) segments."),
  ("META", CompanyInfo.mk "Meta Platforms, Inc." "Technology" "Internet Content & Information" 1200000000000 "Meta Platforms, Inc. develops products that enable people to connect and share with friends and family through mobile devices, personal computers, virtual reality headsets, and wearables worldwide. It operates in two segments, Family of Apps and Reality Labs."),
  ("TSLA", CompanyInfo.mk "Tesla, Inc." "Consumer Cyclical" "Auto Manufacturers" 600000000000 "Tesla, Inc. designs, develops, manufactures, leases, and sells electric vehicles, and energy generation and storage systems in the United States, China, and internationally. It operates in two segments, Automotive, and Energy Generation and Storage."),
  ("NVDA", CompanyInfo.mk "NVIDIA Corporation" "Technology" "Semiconductors" 2500000000000 "NVIDIA Corporation provides graphics, compute and networking solutions in the United States, Taiwan, China, and internationally.")]

/-- The `default_info` dictionary used for symbols outside the table
(lines 88-96). -/
def default_info (symbol : String) (d : DsDraws) : CompanyInfo :=
  { name := symbol ++ " Corporation", industry := "Various", sector := "Various",
    market_cap := d.default_market_cap,
    summary := "Information for " ++ symbol ++ " is limited. This company operates in various sectors and markets." }

/-- One of the five insight strings of
`simpleDeepseekService.get_stock_info` (lines 134-140); each
constructor stands for one template, carrying the interpolated
numbers/flags. -/
inductive DsInsight
  | priceMove (declined : Bool) (pct : ℚ)
  | peValuation (pe : ℚ) (premium : Bool)
  | betaRelative (beta : ℚ) (more : Bool)
  | aboveLow (pct : ℚ)
  | sentimentNote (s : Sentiment)
deriving DecidableEq, Repr

/-- The `data` payload of `simpleDeepseekService.get_stock_info`
(lines 168-188). -/
structure DsData where
  symbol : String
  name : String
  currentPrice : ℚ
  previousClose : ℚ
  priceChange : ℚ
  priceChangePercent : ℚ
  industry : String
  sector : String
  marketCap : ℚ
  pe_ratio : ℚ
  beta : ℚ
  summary : String
  news : List NewsItem
  volatility : ℚ
  fiftyTwoWeekLow : ℚ
  fiftyTwoWeekHigh : ℚ
  insights : List DsInsight
  riskLevel : RiskLevel
  sentiment : Sentiment
deriving DecidableEq, Repr

/-- `simpleDeepseekService.get_stock_info` (lines 15-191).  `fmtDate n`
stands for `(today - timedelta(days=n)).strftime(...)`, supplied by the
clock.  The function itself never branches into a failure: the envelope
always carries `success: True`.  An `.error` result models a raised
`ZeroDivisionError`, which the `__main__` handler would turn into a
`success: false` JSON object - the theorems show it cannot happen for
the positive prices the service draws. -/
def get_stock_info (symbol : String) (fmtDate : ℕ → String) (d : DsDraws) :
    Except String DsData :=
  let company := (company_info.lookup symbol).getD (default_info symbol d)
  let price := d.price
  let prev_close := d.prev_close
  let price_change := price - prev_close
  if prev_close = 0 then .error "float division by zero"
  else
    let price_change_percent := price_change / prev_close * 100
    let fifty_two_week_low := min (price * (7/10)) (prev_close * (7/10))
    let fifty_two_week_high := max (price * (13/10)) (prev_close * (13/10))
    let sr := classify price_change_percent
    if fifty_two_week_low = 0 then .error "float division by zero"
    else
      let insights : List DsInsight := [
        .priceMove (price_change < 0) |price_change_percent|,
        .peValuation d.pe_ratio (d.pe_ratio > 25),
        .betaRelative d.beta (d.beta > 1),
        .aboveLow ((price / fifty_two_week_low - 1) * 100),
        .sentimentNote sr.1]
      let news : List NewsItem := [
        { title := company.name ++ " Reports " ++
            (if d.newsFlip1 then "Positive" else "Mixed") ++ " Quarterly Results",
          url := "https://finance.example.com/news/" ++ pyLower symbol ++ "-quarterly-results",
          publishedAt := fmtDate d.newsDays1, source := "Financial News" },
        { title := "Analysts " ++ (if d.newsFlip2 then "Upgrade" else "Maintain") ++
            " Rating on " ++ company.name,
          url := "https://finance.example.com/news/" ++ pyLower symbol ++ "-analyst-rating",
          publishedAt := fmtDate d.newsDays2, source := "Market Analysis" },
        { title := company.name ++ " " ++
            (if d.newsFlip3 then "Expands" else "Optimizes") ++
            " Operations in Global Markets",
          url := "https://finance.example.com/news/" ++ pyLower symbol ++ "-global-markets",
          publishedAt := fmtDate d.newsDays3, source := "Business Journal" }]
      .ok { symbol := symbol, name := company.name, currentPrice := price,
            previousClose := prev_close, priceChange := price_change,
            priceChangePercent := price_change_percent, industry := company.industry,
            sector := company.sector, marketCap := company.market_cap,
            pe_ratio := d.pe_ratio, beta := d.beta, summary := company.summary,
            news := news, volatility := d.volatility,
            fiftyTwoWeekLow := fifty_two_week_low,
            fiftyTwoWeekHigh := fifty_two_week_high, insights := insights,
            riskLevel := sr.2, sentiment := sr.1 }

/-- Python 3 `round` to an integer: round-half-to-even (banker's
rounding); away from exact halves it agrees with rounding to the
nearest integer. -/
def roundHalfEven (x : ℚ) : ℤ :=
  if x - ⌊x⌋ = 1/2 then (if ⌊x⌋ % 2 = 0 then ⌊x⌋ else ⌊x⌋ + 1) else round x

/-- Python's `round(x, 2)` as used throughout
`simpleYfinanceService.get_top_losers` (lines 172-183). -/
def round2 (x : ℚ) : ℚ := (roundHalfEven (x * 100) : ℚ) / 100

/-- One entry of the `stock_industry_map` table of
`simpleYfinanceService.get_top_losers` (lines 46-103).  The claims
hold for every table, so the model quantifies over it; the source fixes
one literal 56-entry map. -/
structure StockMeta where
  companyName : String
  industry : String
  sector : String
deriving DecidableEq, Repr

/-- Everything the per-symbol body of
`simpleYfinanceService.get_top_losers` (lines 138-193) obtains from its
collaborators: the 5-day `Close` column, the 1-year low/high (already
defaulted to 0 for an empty year frame, lines 159-160), the
`info.get(...)` fields (already defaulted to 0, lines 164-166), and the
synthetic news list produced by `generate_news_for_stock` with its
random draws. -/
structure SimpleFetched where
  closes : List ℚ
  yearLow : ℚ
  yearHigh : ℚ
  volume : ℚ
  averageVolume : ℚ
  marketCap : ℚ
  news : List NewsItem
deriving DecidableEq, Repr

/-- One element of the `data` list built by
`simpleYfinanceService.get_top_losers` (lines 169-191). -/
structure SimpleLoser where
  symbol : String
  companyName : String
  currentPrice : ℚ
  previousClose : ℚ
  priceChange : ℚ
  priceChangePercent : ℚ
  industry : String
  sector : String
  marketCap : ℚ
  exchange : String
  volume : ℚ
  averageVolume : ℚ
  w52Low : ℚ
  w52High : ℚ
  news : List NewsItem
deriving DecidableEq, Repr

/-- The per-symbol `try` body of `simpleYfinanceService.get_top_losers`
(lines 138-196).  `fetched = .error ()` models any exception raised
while processing this symbol (the `except` clause drops it with
`continue`); an empty `Close` column models `hist.empty` (also
`continue`).  The divisor `previous_close` is a float in the source,
so a zero value yields an infinite percentage rather than an
exception; the claims never touch that case and the model uses total
rational division there. -/
def simple_process_symbol (stock_map : List (String × StockMeta)) (symbol : String)
    (fetched : Except Unit SimpleFetched) : Option SimpleLoser :=
  match fetched with
  | .error _ => none
  | .ok f =>
    match f.closes.getLast? with
    | none => none
    | some current_price =>
      let previous_close := if 1 < f.closes.length
        then f.closes.getD (f.closes.length - 2) 0 else current_price
      let price_change := current_price - previous_close
      let price_change_percent := price_change / previous_close * 100
      match stock_map.lookup symbol with
      | none => none
      | some meta =>
        some { symbol := symbol
               companyName := meta.companyName
               currentPrice := round2 current_price
               previousClose := round2 previous_close
               priceChange := round2 price_change
               priceChangePercent := round2 price_change_percent
               industry := meta.industry
               sector := meta.sector
               marketCap := f.marketCap
               exchange := "NASDAQ"
               volume := f.volume
               averageVolume := f.averageVolume
               w52Low := round2 f.yearLow
               w52High := round2 f.yearHigh
               news := f.news }

/-- The symbol-selection step of `simpleYfinanceService.get_top_losers`
(lines 106-111): all map keys, or only those whose industry matches the
filter (`None` and the empty string are falsy, `"all"` is exempt; the
comparison is exact). -/
def simple_selected_symbols (stock_map : List (String × StockMeta))
    (industry : Option String) : List String :=
  match industry with
  | some f =>
    if f ≠ "" ∧ f ≠ "all"
    then (stock_map.filter (fun p => p.2.industry = f)).map Prod.fst
    else stock_map.map Prod.fst
  | none => stock_map.map Prod.fst

/-- The per-symbol loop of `simpleYfinanceService.get_top_losers`
(lines 137-196): the selected symbols, capped at
`min(len(stock_symbols), limit * 2)`, each processed by the `try`
body; failed symbols are dropped. -/
def simple_results (stock_map : List (String × StockMeta)) (industry : Option String)
    (limit : ℕ) (fetch : String → Except Unit SimpleFetched) : List SimpleLoser :=
  let syms := simple_selected_symbols stock_map industry
  (syms.take (min syms.length (limit * 2))).filterMap
    (fun s => simple_process_symbol stock_map s (fetch s))

/-- The sort step (line 199): ascending by `priceChangePercent`
(Python's stable sort, modelled by insertion sort). -/
def simple_sorted_results (stock_map : List (String × StockMeta)) (industry : Option String)
    (limit : ℕ) (fetch : String → Except Unit SimpleFetched) : List SimpleLoser :=
  (simple_results stock_map industry limit fetch).insertionSort
    (fun a b => a.priceChangePercent ≤ b.priceChangePercent)

/-- The JSON envelope of `simpleYfinanceService.get_top_losers`. -/
inductive SimpleBatch
  | failure (message : String)
  | success (data : List SimpleLoser) (message : String)
deriving DecidableEq, Repr

/-- `simpleYfinanceService.get_top_losers` (lines 16-221).
`importError` models a failure of the `import yfinance` statement (or
any other exception escaping the per-symbol handlers), which the outer
`except` turns into the failure envelope. -/
def simple_get_top_losers (stock_map : List (String × StockMeta)) (industry : Option String)
    (limit : ℕ) (fetch : String → Except Unit SimpleFetched)
    (importError : Option String) : SimpleBatch :=
  let syms := simple_selected_symbols stock_map industry
  if syms.isEmpty then .success [] "No stocks found for the specified industry"
  else
    match importError with
    | some e => .failure ("Error retrieving stock data: " ++ e)
    | none =>
      .success ((simple_sorted_results stock_map industry limit fetch).take limit)
        "Retrieved top stock losers"

/-- The `ticker.info` fields consumed by
`yfinanceService.get_top_losers`; every `.get(key, default)` becomes an
`Option` field plus `getD`. -/
structure LoserTickerInfo where
  exchange : Option String
  industry : Option String
  sector : Option String
  longName : Option String
  marketCap : Option ℚ
  averageVolume : Option ℚ
  fiftyTwoWeekLow : Option ℚ
  fiftyTwoWeekHigh : Option ℚ
deriving DecidableEq, Repr

/-- The price figures one symbol contributes, whether from the bulk
download or from the individual-history fallback
(`yfinanceService.py` lines 77-104). -/
structure PriceData where
  currentPrice : ℚ
  previousClose : ℚ
  volume : ℚ
  high : ℚ
  low : ℚ
deriving DecidableEq, Repr

/-- The collaborator results for one symbol inside the loop of
`yfinanceService.get_top_losers` (lines 62-157): `info = .error` models
an exception while building `ticker.info` (caught by the per-symbol
handler, symbol dropped); `info = .ok none` models an empty dictionary
(line 69, symbol skipped); `price = none` models every
missing-or-failing price path (not in the bulk data and an empty/short
or raising individual history - all end in `continue`); `news = .error`
models an exception from `ticker.news`, caught by the inner handler of
lines 120-134, which leaves the news list empty but keeps the
symbol. -/
structure YfOracle where
  info : Except Unit (Option LoserTickerInfo)
  price : Option PriceData
  news : Except Unit (List NewsItem)

/-- One element of the `all_losers` list of
`yfinanceService.get_top_losers` (lines 137-154). -/
structure YfLoser where
  symbol : String
  companyName : String
  currentPrice : ℚ
  priceChange : ℚ
  priceChangePercent : ℚ
  industry : String
  sector : String
  marketCap : ℚ
  exchange : String
  news : List NewsItem
  volume : ℚ
  high : ℚ
  low : ℚ
  averageVolume : ℚ
  w52Low : ℚ
  w52High : ℚ
deriving DecidableEq, Repr

/-- Python's substring test `needle in haystack`, used for the
`'NYSE' not in exchange and 'NASDAQ' not in exchange` filter
(line 74). -/
def containsSub (needle : List Char) : List Char → Bool
  | [] => needle.isEmpty
  | c :: t => needle.isPrefixOf (c :: t) || containsSub needle t

/-- The per-symbol `try` body of `yfinanceService.get_top_losers`
(lines 63-157): `none` is `continue` (symbol dropped).  As in the
source, the delta is computed before the zero-price check; the divisor
is a float there, so the model's total rational division is only
reached with a nonzero divisor anyway. -/
def yf_process_symbol (industry : Option String) (symbol : String) (o : YfOracle) :
    Option YfLoser :=
  match o.info with
  | .error _ => none
  | .ok none => none
  | .ok (some ti) =>
    let exchange := pyUpper (ti.exchange.getD "")
    if !(containsSub "NYSE".toList exchange.toList ||
         containsSub "NASDAQ".toList exchange.toList) then none
    else
      match o.price with
      | none => none
      | some pd =>
        let price_change := pd.currentPrice - pd.previousClose
        let price_change_percent := price_change / pd.previousClose * 100
        if pd.currentPrice = 0 ∨ pd.previousClose = 0 then none
        else
          let industry_value := ti.industry.getD ""
          let skip : Bool := match industry with
            | some f => (f != "") && (f != "all") && (pyLower industry_value != pyLower f)
            | none => false
          if skip then none
          else
            let news : List NewsItem := match o.news with
              | .ok items => items.take 3
              | .error _ => []
            some { symbol := symbol
                   companyName := ti.longName.getD symbol
                   currentPrice := pd.currentPrice
                   priceChange := price_change
                   priceChangePercent := price_change_percent
                   industry := industry_value
                   sector := ti.sector.getD ""
                   marketCap := ti.marketCap.getD 0
                   exchange := exchange
                   news := news
                   volume := pd.volume
                   high := pd.high
                   low := pd.low
                   averageVolume := ti.averageVolume.getD 0
                   w52Low := ti.fiftyTwoWeekLow.getD 0
                   w52High := ti.fiftyTwoWeekHigh.getD 0 }

/-- The `all_losers` accumulation loop (lines 61-157). -/
def yf_all_losers (industry : Option String) (symbols : List String)
    (oracle : String → YfOracle) : List YfLoser :=
  symbols.filterMap (fun s => yf_process_symbol industry s (oracle s))

/-- The sort step (line 164): ascending by `priceChangePercent`. -/
def yf_sorted_losers (industry : Option String) (symbols : List String)
    (oracle : String → YfOracle) : List YfLoser :=
  (yf_all_losers industry symbols oracle).insertionSort
    (fun a b => a.priceChangePercent ≤ b.priceChangePercent)

/-- The JSON envelope of `yfinanceService.get_top_losers`. -/
inductive YfBatch
  | failure (error : String)
  | success (data : List YfLoser)

/-- `yfinanceService.get_top_losers` (lines 16-176).  `screener` is the
result of the screener-API call that produces the candidate symbol
list; its failure propagates through the nested `raise` statements to
the outer handler and becomes the failure envelope (lines 169-176). -/
def yf_get_top_losers (industry : Option String) (limit : ℕ)
    (screener : Except String (List String)) (oracle : String → YfOracle) : YfBatch :=
  match screener with
  | .error e => .failure ("Error getting top losers: " ++ e)
  | .ok symbols => .success ((yf_sorted_losers industry symbols oracle).take limit)

/-- A concrete per-symbol collaborator outcome in which the quote,
info and price data all arrive but the `ticker.news` access raises:
used to analyse the news-error path of `yfinanceService`'s batch
loop. -/
def newsErrOracle : YfOracle :=
  YfOracle.mk
    (.ok (some (LoserTickerInfo.mk (some "NYSE") (some "Tech") (some "T")
      (some "AAA Co") none none none none)))
    (some (PriceData.mk 10 20 1 10 9))
    (.error ())

/-- The `__main__` block of `yfinanceService.py` (lines 348-379):
`command` is the outcome of running the selected command and printing
its JSON result (`.error` models an exception escaping to the
top-level handler).  The `except` clause prints a failure JSON object
but never calls `sys.exit`, so the process exit code is 0 in both
cases. -/
def yfinance_main_exit_code (command : Except String Unit) : ℕ :=
  match command with
  | .ok _ => 0
  | .error _ => 0

/-- The `__main__` block of `simpleYfinanceService.py` (lines 292-310):
the `except` clause prints a failure JSON object and calls
`sys.exit(1)`. -/
def simple_yfinance_main_exit_code (command : Except String Unit) : ℕ :=
  match command with
  | .ok _ => 0
  | .error _ => 1

/-- The `__main__` block of `simpleDeepseekService.py`
(lines 193-208): the `except` clause prints a failure JSON object and
calls `sys.exit(1)`. -/
def simple_deepseek_main_exit_code (command : Except String Unit) : ℕ :=
  match command with
  | .ok _ => 0
  | .error _ => 1

end MS

namespace MS

/-- C1: for every `priceChangePercent` the sentiment and risk labels are
assigned by the fixed first-match-wins bands `<-5 → Bearish/High`,
`<-2 → Slightly Bearish/Medium-High`, `>5 → Bullish/Medium-High`,
`>2 → Slightly Bullish/Medium`, else `Neutral/Medium`; each boundary
value (-5, -2, 2, 5) lands in exactly one adjacent band, always the one
closer to `Neutral`; and the guarded variant of `yfinanceService`
agrees with the shared chain at every present percentage. -/
theorem classification_bands (pct : ℚ) :
    (classify pct = (.Bearish, .High) ↔ pct < -5) ∧
    (classify pct = (.SlightlyBearish, .MediumHigh) ↔ -5 ≤ pct ∧ pct < -2) ∧
    (classify pct = (.Bullish, .MediumHigh) ↔ 5 < pct) ∧
    (classify pct = (.SlightlyBullish, .Medium) ↔ 2 < pct ∧ pct ≤ 5) ∧
    (classify pct = (.Neutral, .Medium) ↔ -2 ≤ pct ∧ pct ≤ 2) ∧
    classifyOpt (some pct) = classify pct ∧
    classify (-5) = (.SlightlyBearish, .MediumHigh) ∧
    classify (-2) = (.Neutral, .Medium) ∧
    classify 2 = (.Neutral, .Medium) ∧
    classify 5 = (.SlightlyBullish, .Medium) := by
  have hopt : classifyOpt (some pct) = classify pct := by
    show (if pct = 0 then (Sentiment.Neutral, RiskLevel.Medium) else classify pct) = classify pct
    split_ifs with h
    · subst h; unfold classify; norm_num
    · rfl
  refine ⟨?_, ?_, ?_, ?_, ?_, hopt,
    by unfold classify; norm_num, by unfold classify; norm_num,
    by unfold classify; norm_num, by unfold classify; norm_num⟩ <;>
  · unfold classify
    split_ifs with h1 h2 h3 h4 <;> simp_all <;>
      first
        | linarith
        | (intro h; linarith)

/-- Shape of a successful `get_deepseek_info` run: with a present info
dictionary and a nonempty price history the function always reaches the
final `return` and produces this record. -/
theorem get_deepseek_info_eq (symbol : String) (ti : TickerInfo) (closes : List ℚ)
    (volumes : Option (List ℚ)) (newsFetch : Except Unit (List NewsItem))
    (std : List ℚ → ℚ) (hne : closes ≠ []) :
    get_deepseek_info symbol (some ti) closes volumes newsFetch std = .success {
      symbol := symbol
      name := ti.shortName.getD symbol
      currentPrice := closes.getLast?
      previousClose := ti.previousClose
      priceChange := (deepseekDelta closes.getLast? ti.previousClose).1
      priceChangePercent := (deepseekDelta closes.getLast? ti.previousClose).2
      industry := ti.industry.getD "Unknown"
      sector := ti.sector.getD "Unknown"
      marketCap := ti.marketCap
      trailingPE := ti.trailingPE
      beta := ti.beta
      summary := ti.longBusinessSummary.getD
        ("No summary available for " ++ ti.shortName.getD symbol ++ ".")
      news := match newsFetch with
        | .ok items => items.take 5
        | .error _ => []
      volatility := if 5 < closes.length then some (std (pct_change closes) * 100) else none
      fiftyTwoWeekLow := ti.fiftyTwoWeekLow
      fiftyTwoWeekHigh := ti.fiftyTwoWeekHigh
      insights := mkInsights (deepseekDelta closes.getLast? ti.previousClose).2 volumes
        (if 5 < closes.length then some (std (pct_change closes) * 100) else none) ti.marketCap
      riskLevel := (classifyOpt (deepseekDelta closes.getLast? ti.previousClose).2).2
      sentiment := (classifyOpt (deepseekDelta closes.getLast? ti.previousClose).2).1 } := by
  have hemp : closes.isEmpty = false := by simpa [List.isEmpty_iff] using hne
  simp [get_deepseek_info, hemp]

/-- When the divisor is absent or zero, both delta fields stay `None`. -/
theorem deepseekDelta_none (current_price : Option ℚ) (prev_close : Option ℚ)
    (hprev : prev_close = none ∨ prev_close = some 0) :
    deepseekDelta current_price prev_close = (none, none) := by
  rcases hprev with h | h <;> simp [deepseekDelta, truthy, h]

/-- C6: when `previousClose` is zero or absent, the reported
`priceChange` and `priceChangePercent` are null (the guarded division
is skipped) and the computation still completes with a success
result. -/
theorem null_delta_on_missing_previous_close (symbol : String) (ti : TickerInfo)
    (closes : List ℚ) (volumes : Option (List ℚ)) (newsFetch : Except Unit (List NewsItem))
    (std : List ℚ → ℚ) (hne : closes ≠ [])
    (hprev : ti.previousClose = none ∨ ti.previousClose = some 0) :
    ∃ d, get_deepseek_info symbol (some ti) closes volumes newsFetch std = .success d ∧
      d.priceChange = none ∧ d.priceChangePercent = none := by
  refine ⟨_, get_deepseek_info_eq symbol ti closes volumes newsFetch std hne, ?_, ?_⟩ <;>
    simp [deepseekDelta_none closes.getLast? ti.previousClose hprev]

/-- Witness for `null_delta_on_missing_previous_close` at a concrete
input: a one-bar history and a ticker info with `previousClose`
missing. -/
theorem null_delta_on_missing_previous_close_witness :
    ∃ d, get_deepseek_info "AAA"
        (some { shortName := none, previousClose := none, marketCap := none,
                trailingPE := none, beta := none, industry := none, sector := none,
                longBusinessSummary := none, fiftyTwoWeekLow := none,
                fiftyTwoWeekHigh := none })
        [10] none (.error ()) (fun _ => 0) = .success d ∧
      d.priceChange = none ∧ d.priceChangePercent = none :=
  null_delta_on_missing_previous_close "AAA" _ [10] none (.error ()) (fun _ => 0)
    (by simp) (Or.inl rfl)

/-- The price rule only emits price sentences. -/
theorem priceInsights_kinds (p : Option ℚ) :
    ∀ i ∈ priceInsights p, i.aboutMarketCap = false ∧ i.aboutVolume = false ∧
      i.aboutVolatility = false := by
  rcases p with _ | q
  · simp [priceInsights]
  · simp only [priceInsights]
    split_ifs <;> simp [Insight.aboutMarketCap, Insight.aboutVolume, Insight.aboutVolatility]

/-- The volume rule only emits volume sentences. -/
theorem volumeInsights_kinds (vols : Option (List ℚ)) :
    ∀ i ∈ volumeInsights vols, i.aboutMarketCap = false ∧ i.aboutVolatility = false := by
  rcases vols with _ | l
  · simp [volumeInsights]
  · simp only [volumeInsights]
    split_ifs <;> simp [Insight.aboutMarketCap, Insight.aboutVolatility]

/-- The volatility rule only emits volatility sentences. -/
theorem volatilityInsights_kinds (v : Option ℚ) :
    ∀ i ∈ volatilityInsights v, i.aboutMarketCap = false ∧ i.aboutVolume = false := by
  rcases v with _ | q
  · simp [volatilityInsights]
  · simp only [volatilityInsights]
    split_ifs <;> simp [Insight.aboutMarketCap, Insight.aboutVolume]

/-- The market-cap rule only emits market-cap sentences. -/
theorem capInsights_kinds (m : Option ℚ) :
    ∀ i ∈ capInsights m, i.aboutVolume = false ∧ i.aboutVolatility = false := by
  rcases m with _ | q
  · simp [capInsights]
  · simp only [capInsights]
    split_ifs <;> simp [Insight.aboutVolume, Insight.aboutVolatility]

/-- Every generated insight comes from one of the four rules or is the
generic fallback sentence. -/
theorem mem_mkInsights (p : Option ℚ) (vols : Option (List ℚ)) (v m : Option ℚ)
    (i : Insight) (h : i ∈ mkInsights p vols v m) :
    i ∈ priceInsights p ∨ i ∈ volumeInsights vols ∨ i ∈ volatilityInsights v ∨
      i ∈ capInsights m ∨ i = .fallback := by
  simp only [mkInsights] at h
  split_ifs at h <;> simp only [List.mem_append, List.mem_singleton] at h <;> tauto

/-- C7: a missing optional input (beta, market cap, volume column,
volatility) never aborts the single-symbol computation - the result is
still a success - and only suppresses the dependent insight rule: no
market-cap sentence without a market cap, no volume sentence without a
volume column, no volatility sentence when the history is too short to
compute one, and a missing beta changes nothing but the passthrough
`beta` field. -/
theorem optional_inputs_only_suppress (symbol : String) (ti : TickerInfo)
    (closes : List ℚ) (volumes : Option (List ℚ)) (newsFetch : Except Unit (List NewsItem))
    (std : List ℚ → ℚ) (hne : closes ≠ []) :
    ∃ d, get_deepseek_info symbol (some ti) closes volumes newsFetch std = .success d ∧
      (ti.marketCap = none → ∀ i ∈ d.insights, i.aboutMarketCap = false) ∧
      (volumes = none → ∀ i ∈ d.insights, i.aboutVolume = false) ∧
      (closes.length ≤ 5 → ∀ i ∈ d.insights, i.aboutVolatility = false) ∧
      get_deepseek_info symbol (some { ti with beta := none }) closes volumes newsFetch std =
        .success { d with beta := none } := by
  refine ⟨_, get_deepseek_info_eq symbol ti closes volumes newsFetch std hne, ?_, ?_, ?_, ?_⟩
  · intro hcap i hi
    rcases mem_mkInsights _ _ _ _ i hi with h | h | h | h | h
    · exact (priceInsights_kinds _ i h).1
    · exact (volumeInsights_kinds _ i h).1
    · exact (volatilityInsights_kinds _ i h).1
    · rw [hcap] at h; simp [capInsights] at h
    · simp [h, Insight.aboutMarketCap]
  · intro hvol i hi
    rcases mem_mkInsights _ _ _ _ i hi with h | h | h | h | h
    · exact (priceInsights_kinds _ i h).2.1
    · rw [hvol] at h; simp [volumeInsights] at h
    · exact (volatilityInsights_kinds _ i h).2
    · exact (capInsights_kinds _ i h).1
    · simp [h, Insight.aboutVolume]
  · intro hlen i hi
    have hvn : (if 5 < closes.length then some (std (pct_change closes) * 100) else none) =
        (none : Option ℚ) := by
      rw [if_neg]; omega
    rw [hvn] at hi
    rcases mem_mkInsights _ _ _ _ i hi with h | h | h | h | h
    · exact (priceInsights_kinds _ i h).2.2
    · exact (volumeInsights_kinds _ i h).2
    · simp [volatilityInsights] at h
    · exact (capInsights_kinds _ i h).2
    · simp [h, Insight.aboutVolatility]
  · rw [get_deepseek_info_eq symbol { ti with beta := none } closes volumes newsFetch std hne]

/-- Witness for `optional_inputs_only_suppress` at a concrete input
with all optional fields absent. -/
theorem optional_inputs_only_suppress_witness :
    ∃ d, get_deepseek_info "BBB"
        (some { shortName := none, previousClose := none, marketCap := none,
                trailingPE := none, beta := none, industry := none, sector := none,
                longBusinessSummary := none, fiftyTwoWeekLow := none,
                fiftyTwoWeekHigh := none })
        [10] none (.ok []) (fun _ => 0) = .success d ∧
      ((none : Option ℚ) = none → ∀ i ∈ d.insights, i.aboutMarketCap = false) ∧
      ((none : Option (List ℚ)) = none → ∀ i ∈ d.insights, i.aboutVolume = false) ∧
      (([10] : List ℚ).length ≤ 5 → ∀ i ∈ d.insights, i.aboutVolatility = false) ∧
      get_deepseek_info "BBB"
        (some { shortName := none, previousClose := none, marketCap := none,
                trailingPE := none, beta := none, industry := none, sector := none,
                longBusinessSummary := none, fiftyTwoWeekLow := none,
                fiftyTwoWeekHigh := none })
        [10] none (.ok []) (fun _ => 0) = .success { d with beta := none } :=
  optional_inputs_only_suppress "BBB" _ [10] none (.ok []) (fun _ => 0) (by simp)

/-- Counterexample to C4 as stated: a run with both `currentPrice` and
`previousClose` present (both 100, so the percentage change is exactly
zero) in which no templated rule fires, so after the single generic
fallback sentence the insights list has length 1, not the claimed floor
of 3. -/
theorem insights_floor_counterexample :
    ∃ d, get_deepseek_info "XYZ"
        (some { shortName := none, previousClose := some 100,
                marketCap := some 50000000000, trailingPE := none, beta := none,
                industry := none, sector := none, longBusinessSummary := none,
                fiftyTwoWeekLow := none, fiftyTwoWeekHigh := none })
        [100, 100] (some [10, 10]) (.ok []) (fun _ => 0) = .success d ∧
      d.currentPrice = some 100 ∧ d.previousClose = some 100 ∧
      d.insights = [.fallback] ∧ d.insights.length < 3 := by
  refine ⟨_, get_deepseek_info_eq "XYZ" _ [100, 100] (some [10, 10]) (.ok [])
    (fun _ => 0) (by simp), by simp, by simp, ?_, ?_⟩ <;>
    norm_num [mkInsights, priceInsights, volumeInsights, volatilityInsights, capInsights,
      deepseekDelta, truthy]

/-- The final floor step of the insight block (lines 308-310): the
fallback is appended exactly when fewer than 3 sentences accumulated,
so the result is never empty and ends with the fallback whenever it is
still short of 3. -/
theorem mkInsights_fallback (p : Option ℚ) (vols : Option (List ℚ)) (v m : Option ℚ) :
    mkInsights p vols v m ≠ [] ∧
    ((mkInsights p vols v m).length < 3 →
      (mkInsights p vols v m).getLast? = some .fallback) := by
  simp only [mkInsights]
  split_ifs with h
  · exact ⟨by simp, fun _ => List.getLast?_concat _⟩
  · exact ⟨fun he => h (by rw [he]; simp), fun hlt => absurd hlt h⟩

/-- C4 amended: with price data present the insights list is always
nonempty - when fewer than 3 templated rule sentences accumulate, the
single generic fallback sentence is appended, which guarantees at least
one entry but not the floor of 3 stated by the spec. -/
theorem insights_fallback_floor (symbol : String) (ti : TickerInfo)
    (closes : List ℚ) (volumes : Option (List ℚ)) (newsFetch : Except Unit (List NewsItem))
    (std : List ℚ → ℚ) (hne : closes ≠ []) :
    ∃ d, get_deepseek_info symbol (some ti) closes volumes newsFetch std = .success d ∧
      d.insights ≠ [] ∧
      (d.insights.length < 3 → d.insights.getLast? = some .fallback) := by
  refine ⟨_, get_deepseek_info_eq symbol ti closes volumes newsFetch std hne, ?_, ?_⟩
  · exact (mkInsights_fallback _ _ _ _).1
  · exact (mkInsights_fallback _ _ _ _).2

/-- Witness for `insights_fallback_floor` at a concrete input. -/
theorem insights_fallback_floor_witness :
    ∃ d, get_deepseek_info "CCC"
        (some { shortName := none, previousClose := none, marketCap := none,
                trailingPE := none, beta := none, industry := none, sector := none,
                longBusinessSummary := none, fiftyTwoWeekLow := none,
                fiftyTwoWeekHigh := none })
        [10] none (.ok []) (fun _ => 0) = .success d ∧
      d.insights ≠ [] ∧
      (d.insights.length < 3 → d.insights.getLast? = some .fallback) :=
  insights_fallback_floor "CCC" _ [10] none (.ok []) (fun _ => 0) (by simp)

/-- Shape of a `get_stock_info` run with positive price draws (as the
`random.uniform` ranges of the service guarantee): both division
guards pass and the fixed success envelope is produced. -/
theorem get_stock_info_ok (symbol : String) (fmtDate : ℕ → String) (d : DsDraws)
    (hq : d.prev_close ≠ 0)
    (hlow : min (d.price * (7/10)) (d.prev_close * (7/10)) ≠ 0) :
    get_stock_info symbol fmtDate d = .ok {
      symbol := symbol
      name := ((company_info.lookup symbol).getD (default_info symbol d)).name
      currentPrice := d.price
      previousClose := d.prev_close
      priceChange := d.price - d.prev_close
      priceChangePercent := (d.price - d.prev_close) / d.prev_close * 100
      industry := ((company_info.lookup symbol).getD (default_info symbol d)).industry
      sector := ((company_info.lookup symbol).getD (default_info symbol d)).sector
      marketCap := ((company_info.lookup symbol).getD (default_info symbol d)).market_cap
      pe_ratio := d.pe_ratio
      beta := d.beta
      summary := ((company_info.lookup symbol).getD (default_info symbol d)).summary
      news := [
        { title := ((company_info.lookup symbol).getD (default_info symbol d)).name ++
            " Reports " ++ (if d.newsFlip1 then "Positive" else "Mixed") ++
            " Quarterly Results",
          url := "https://finance.example.com/news/" ++ pyLower symbol ++
            "-quarterly-results",
          publishedAt := fmtDate d.newsDays1, source := "Financial News" },
        { title := "Analysts " ++ (if d.newsFlip2 then "Upgrade" else "Maintain") ++
            " Rating on " ++ ((company_info.lookup symbol).getD (default_info symbol d)).name,
          url := "https://finance.example.com/news/" ++ pyLower symbol ++
            "-analyst-rating",
          publishedAt := fmtDate d.newsDays2, source := "Market Analysis" },
        { title := ((company_info.lookup symbol).getD (default_info symbol d)).name ++
            " " ++ (if d.newsFlip3 then "Expands" else "Optimizes") ++
            " Operations in Global Markets",
          url := "https://finance.example.com/news/" ++ pyLower symbol ++
            "-global-markets",
          publishedAt := fmtDate d.newsDays3, source := "Business Journal" }]
      volatility := d.volatility
      fiftyTwoWeekLow := min (d.price * (7/10)) (d.prev_close * (7/10))
      fiftyTwoWeekHigh := max (d.price * (13/10)) (d.prev_close * (13/10))
      insights := [
        .priceMove (d.price - d.prev_close < 0) |(d.price - d.prev_close) / d.prev_close * 100|,
        .peValuation d.pe_ratio (d.pe_ratio > 25),
        .betaRelative d.beta (d.beta > 1),
        .aboveLow ((d.price / min (d.price * (7/10)) (d.prev_close * (7/10)) - 1) * 100),
        .sentimentNote (classify ((d.price - d.prev_close) / d.prev_close * 100)).1]
      riskLevel := (classify ((d.price - d.prev_close) / d.prev_close * 100)).2
      sentiment := (classify ((d.price - d.prev_close) / d.prev_close * 100)).1 } := by
  simp only [get_stock_info]
  rw [if_neg hq, if_neg hlow]

/-- C9: for every symbol - in the built-in table or not - the synthetic
service yields a success envelope with exactly 3 news items and exactly
5 insight strings, and never a structured failure (the division guards
cannot fire for the positive prices the service draws). -/
theorem synthetic_service_shape (symbol : String) (fmtDate : ℕ → String) (d : DsDraws)
    (hp : 0 < d.price) (hq : 0 < d.prev_close) :
    ∃ out, get_stock_info symbol fmtDate d = .ok out ∧
      out.news.length = 3 ∧ out.insights.length = 5 :=
  ⟨_, get_stock_info_ok symbol fmtDate d hq.ne'
    (lt_min (mul_pos hp (by norm_num)) (mul_pos hq (by norm_num))).ne', rfl, rfl⟩

/-- Witness for `synthetic_service_shape` at a concrete unknown symbol
and concrete draws. -/
theorem synthetic_service_shape_witness :
    ∃ out, get_stock_info "ZZZZ" (fun _ => "2024-01-01")
        (DsDraws.mk 100 80 5000000000 2 20 1 true false true 1 2 3) = .ok out ∧
      out.news.length = 3 ∧ out.insights.length = 5 :=
  synthetic_service_shape "ZZZZ" (fun _ => "2024-01-01")
    (DsDraws.mk 100 80 5000000000 2 20 1 true false true 1 2 3)
    (by norm_num) (by norm_num)

/-- C10: the fabricated 52-week range of the synthetic service equals
`min(currentPrice, previousClose) * 0.7` and
`max(currentPrice, previousClose) * 1.3`, and strictly brackets both
the current price and the previous close for positive prices. -/
theorem fifty_two_week_range_brackets (symbol : String) (fmtDate : ℕ → String)
    (d : DsDraws) (hp : 0 < d.price) (hq : 0 < d.prev_close) :
    ∃ out, get_stock_info symbol fmtDate d = .ok out ∧
      out.fiftyTwoWeekLow = min out.currentPrice out.previousClose * (7/10) ∧
      out.fiftyTwoWeekHigh = max out.currentPrice out.previousClose * (13/10) ∧
      out.fiftyTwoWeekLow < out.currentPrice ∧
      out.currentPrice < out.fiftyTwoWeekHigh ∧
      out.fiftyTwoWeekLow < out.previousClose ∧
      out.previousClose < out.fiftyTwoWeekHigh := by
  refine ⟨_, get_stock_info_ok symbol fmtDate d hq.ne'
    (lt_min (mul_pos hp (by norm_num)) (mul_pos hq (by norm_num))).ne', ?_, ?_, ?_, ?_, ?_, ?_⟩
  · show min (d.price * (7/10)) (d.prev_close * (7/10)) = min d.price d.prev_close * (7/10)
    rw [min_mul_of_nonneg _ _ (by norm_num : (0:ℚ) ≤ 7/10)]
  · show max (d.price * (13/10)) (d.prev_close * (13/10)) = max d.price d.prev_close * (13/10)
    rw [max_mul_of_nonneg _ _ (by norm_num : (0:ℚ) ≤ 13/10)]
  · show min (d.price * (7/10)) (d.prev_close * (7/10)) < d.price
    have h1 : min (d.price * (7/10)) (d.prev_close * (7/10)) ≤ d.price * (7/10) :=
      min_le_left _ _
    linarith
  · show d.price < max (d.price * (13/10)) (d.prev_close * (13/10))
    have h1 : d.price * (13/10) ≤ max (d.price * (13/10)) (d.prev_close * (13/10)) :=
      le_max_left _ _
    linarith
  · show min (d.price * (7/10)) (d.prev_close * (7/10)) < d.prev_close
    have h1 : min (d.price * (7/10)) (d.prev_close * (7/10)) ≤ d.prev_close * (7/10) :=
      min_le_right _ _
    linarith
  · show d.prev_close < max (d.price * (13/10)) (d.prev_close * (13/10))
    have h1 : d.prev_close * (13/10) ≤ max (d.price * (13/10)) (d.prev_close * (13/10)) :=
      le_max_right _ _
    linarith

/-- Witness for `fifty_two_week_range_brackets` at concrete draws. -/
theorem fifty_two_week_range_brackets_witness :
    ∃ out, get_stock_info "AAPL" (fun _ => "2024-01-01")
        (DsDraws.mk 180 175 0 3 30 (6/5) false true false 2 4 6) = .ok out ∧
      out.fiftyTwoWeekLow = min out.currentPrice out.previousClose * (7/10) ∧
      out.fiftyTwoWeekHigh = max out.currentPrice out.previousClose * (13/10) ∧
      out.fiftyTwoWeekLow < out.currentPrice ∧
      out.currentPrice < out.fiftyTwoWeekHigh ∧
      out.fiftyTwoWeekLow < out.previousClose ∧
      out.previousClose < out.fiftyTwoWeekHigh :=
  fifty_two_week_range_brackets "AAPL" (fun _ => "2024-01-01")
    (DsDraws.mk 180 175 0 3 30 (6/5) false true false 2 4 6)
    (by norm_num) (by norm_num)

/-- Counterexample to C2 as stated: `simpleYfinanceService`
rounds the reported values to 2 decimal places.  With closes
`[100, 100.001]` (`previousClose = 100 > 0`) the exact
`priceChange` is `0.001` but the reported value is `round(0.001, 2)
= 0.0`, and likewise for the percentage. -/
theorem rounded_delta_counterexample :
    ∃ q, simple_process_symbol
        [("AAPL", StockMeta.mk "Apple Inc." "Technology" "Consumer Electronics")] "AAPL"
        (.ok (SimpleFetched.mk [100, 100001/1000] 50 250 1000 2000 1000000 [])) = some q ∧
      (0:ℚ) < 100 ∧
      q.priceChange = 0 ∧ q.priceChange ≠ 100001/1000 - 100 ∧
      q.priceChangePercent = 0 ∧
      q.priceChangePercent ≠ (100001/1000 - 100) / 100 * 100 := by
  have hr : round2 (1/1000) = 0 := by
    unfold round2 roundHalfEven
    norm_num [round_eq]
  refine ⟨_, rfl, by norm_num, ?_, ?_, ?_, ?_⟩ <;>
  · show _
    simp only [simple_process_symbol, List.getLast?, List.lookup]
    norm_num [round2, roundHalfEven, round_eq]

/-- C2 amended: `yfinanceService.get_deepseek_info` and
`simpleDeepseekService.get_stock_info` report `priceChange` and
`priceChangePercent` exactly; `simpleYfinanceService.get_top_losers`
reports the same two quantities rounded to 2 decimal places (as it
also rounds the prices themselves), so its reported values can differ
from the exact formulas. -/
theorem price_change_reporting (curr prev : ℚ) (symbol : String) (fmtDate : ℕ → String)
    (d : DsDraws) (map : List (String × StockMeta)) (f : SimpleFetched)
    (hc : curr ≠ 0) (hp : 0 < prev) (hdp : d.price = curr) (hdq : d.prev_close = prev)
    (hf : f.closes = [prev, curr]) (hm : map.lookup symbol ≠ none) :
    deepseekDelta (some curr) (some prev) =
      (some (curr - prev), some ((curr - prev) / prev * 100)) ∧
    (∃ out, get_stock_info symbol fmtDate d = .ok out ∧
      out.priceChange = curr - prev ∧
      out.priceChangePercent = (curr - prev) / prev * 100) ∧
    (∃ q, simple_process_symbol map symbol (.ok f) = some q ∧
      q.priceChange = round2 (curr - prev) ∧
      q.priceChangePercent = round2 ((curr - prev) / prev * 100)) := by
  have hlow : min (d.price * (7/10)) (d.prev_close * (7/10)) ≠ 0 := by
    rcases hc.lt_or_lt with h | h
    · have h1 : d.price * (7/10) < 0 := by rw [hdp]; nlinarith
      exact (lt_of_le_of_lt (min_le_left _ _) h1).ne
    · have h1 : 0 < d.price * (7/10) := by rw [hdp]; nlinarith
      have h2 : 0 < d.prev_close * (7/10) := by rw [hdq]; nlinarith
      exact (lt_min h1 h2).ne'
  refine ⟨?_, ?_, ?_⟩
  · simp [deepseekDelta, truthy, hc, hp.ne']
  · refine ⟨_, get_stock_info_ok symbol fmtDate d (by rw [hdq]; exact hp.ne') hlow, ?_, ?_⟩ <;>
      simp [hdp, hdq]
  · rcases hmeta : map.lookup symbol with _ | meta
    · exact absurd hmeta hm
    · simp only [simple_process_symbol, hf, hmeta, List.getLast?_cons_cons,
        List.getLast?_singleton, List.length_cons, List.length_nil, List.getD, List.get?]
      norm_num

/-- Witness for `price_change_reporting` at concrete inputs
(`curr = 101`, `prev = 100`). -/
theorem price_change_reporting_witness :
    deepseekDelta (some 101) (some 100) =
      (some ((101:ℚ) - 100), some (((101:ℚ) - 100) / 100 * 100)) ∧
    (∃ out, get_stock_info "MSFT" (fun _ => "2024-01-01")
        (DsDraws.mk 101 100 0 2 20 1 true true true 1 2 3) = .ok out ∧
      out.priceChange = (101:ℚ) - 100 ∧
      out.priceChangePercent = ((101:ℚ) - 100) / 100 * 100) ∧
    (∃ q, simple_process_symbol [("MSFT", StockMeta.mk "Microsoft Corporation" "Technology" "Software")] "MSFT"
        (.ok (SimpleFetched.mk [100, 101] 0 0 0 0 0 [])) = some q ∧
      q.priceChange = round2 ((101:ℚ) - 100) ∧
      q.priceChangePercent = round2 (((101:ℚ) - 100) / 100 * 100)) :=
  price_change_reporting 101 100 "MSFT" (fun _ => "2024-01-01")
    (DsDraws.mk 101 100 0 2 20 1 true true true 1 2 3)
    [("MSFT", StockMeta.mk "Microsoft Corporation" "Technology" "Software")]
    (SimpleFetched.mk [100, 101] 0 0 0 0 0 [])
    (by norm_num) (by norm_num) rfl rfl rfl (by simp [List.lookup])

/-- C3: on success, both batch implementations return exactly the
ascending-by-`priceChangePercent` sort of the collected losers
truncated to the requested limit: the data is sorted, its length is at
most the limit, and it is a prefix of the full sorted list. -/
theorem losers_sorted_truncated (industry : Option String) (limit : ℕ)
    (symbols : List String) (oracle : String → YfOracle)
    (map : List (String × StockMeta)) (ifilt : Option String)
    (fetch : String → Except Unit SimpleFetched) :
    yf_get_top_losers industry limit (.ok symbols) oracle =
      .success ((yf_sorted_losers industry symbols oracle).take limit) ∧
    ((yf_sorted_losers industry symbols oracle).take limit).Sorted
      (fun a b => a.priceChangePercent ≤ b.priceChangePercent) ∧
    ((yf_sorted_losers industry symbols oracle).take limit).length ≤ limit ∧
    List.IsPrefix ((yf_sorted_losers industry symbols oracle).take limit)
      (yf_sorted_losers industry symbols oracle) ∧
    (∃ msg, simple_get_top_losers map ifilt limit fetch none =
      .success ((simple_sorted_results map ifilt limit fetch).take limit) msg) ∧
    ((simple_sorted_results map ifilt limit fetch).take limit).Sorted
      (fun a b => a.priceChangePercent ≤ b.priceChangePercent) ∧
    ((simple_sorted_results map ifilt limit fetch).take limit).length ≤ limit ∧
    List.IsPrefix ((simple_sorted_results map ifilt limit fetch).take limit)
      (simple_sorted_results map ifilt limit fetch) := by
  haveI ht1 : IsTotal YfLoser (fun a b => a.priceChangePercent ≤ b.priceChangePercent) :=
    ⟨fun a b => le_total _ _⟩
  haveI ht2 : IsTrans YfLoser (fun a b => a.priceChangePercent ≤ b.priceChangePercent) :=
    ⟨fun a b c h1 h2 => le_trans h1 h2⟩
  haveI ht3 : IsTotal SimpleLoser (fun a b => a.priceChangePercent ≤ b.priceChangePercent) :=
    ⟨fun a b => le_total _ _⟩
  haveI ht4 : IsTrans SimpleLoser (fun a b => a.priceChangePercent ≤ b.priceChangePercent) :=
    ⟨fun a b c h1 h2 => le_trans h1 h2⟩
  refine ⟨rfl, ?_, ?_, ?_, ?_, ?_, ?_, ?_⟩
  · exact (List.sorted_insertionSort _ _).sublist (List.take_sublist _ _)
  · rw [List.length_take]; exact min_le_left _ _
  · exact ⟨_, List.take_append_drop limit _⟩
  · by_cases hsym : (simple_selected_symbols map ifilt).isEmpty
    · refine ⟨"No stocks found for the specified industry", ?_⟩
      have h0 : simple_selected_symbols map ifilt = [] := by
        simpa [List.isEmpty_iff] using hsym
      simp [simple_get_top_losers, hsym, simple_sorted_results, simple_results, h0,
        List.insertionSort]
    · exact ⟨"Retrieved top stock losers", by simp [simple_get_top_losers, hsym]⟩
  · exact (List.sorted_insertionSort _ _).sublist (List.take_sublist _ _)
  · rw [List.length_take]; exact min_le_left _ _
  · exact ⟨_, List.take_append_drop limit _⟩

/-- C8: exit-code behaviour of the three `__main__` blocks.  The two
`simple*` scripts exit 0 on success and 1 when the top-level handler
catches an error; `yfinanceService.py` prints the same failure JSON
but is missing the `sys.exit(1)` call, so it exits 0 even on a caught
top-level error, contradicting the claimed contract. -/
theorem main_exit_codes (e : String) :
    simple_yfinance_main_exit_code (.ok ()) = 0 ∧
    simple_yfinance_main_exit_code (.error e) = 1 ∧
    simple_deepseek_main_exit_code (.ok ()) = 0 ∧
    simple_deepseek_main_exit_code (.error e) = 1 ∧
    yfinance_main_exit_code (.ok ()) = 0 ∧
    yfinance_main_exit_code (.error e) = 0 :=
  ⟨rfl, rfl, rfl, rfl, rfl, rfl⟩

/-- A produced simple-loser record carries the symbol it was built
from, and only a successful fetch can produce one. -/
theorem simple_process_symbol_some (map : List (String × StockMeta)) (s : String)
    (fetched : Except Unit SimpleFetched) (r : SimpleLoser)
    (h : simple_process_symbol map s fetched = some r) :
    r.symbol = s ∧ ∃ f, fetched = .ok f := by
  rcases fetched with u | f
  · simp [simple_process_symbol] at h
  · refine ⟨?_, f, rfl⟩
    rcases hc : f.closes.getLast? with _ | current
    · simp [simple_process_symbol, hc] at h
    · rcases hm : map.lookup s with _ | meta
      · simp [simple_process_symbol, hc, hm] at h
      · simp only [simple_process_symbol, hc, hm] at h
        obtain rfl := Option.some.inj h
        rfl

/-- A produced yfinance-loser record carries the symbol it was built
from, and only a run with successful info and price fetches can
produce one. -/
theorem yf_process_symbol_some (industry : Option String) (s : String) (o : YfOracle)
    (r : YfLoser) (h : yf_process_symbol industry s o = some r) :
    r.symbol = s ∧ (∃ ti, o.info = .ok (some ti)) ∧ ∃ pd, o.price = some pd := by
  obtain ⟨info, price, news⟩ := o
  rcases info with u | oti
  · simp [yf_process_symbol] at h
  · rcases oti with _ | ti
    · simp [yf_process_symbol] at h
    · rcases price with _ | pd
      · simp only [yf_process_symbol] at h
        split_ifs at h
      · refine ⟨?_, ⟨ti, rfl⟩, ⟨pd, rfl⟩⟩
        simp only [yf_process_symbol] at h
        split_ifs at h
        simp_all
        rw [← h]

/-- When the news fetch for a symbol raises, `yfinanceService`'s inner
handler leaves the news list empty in the record it still builds. -/
theorem yf_process_symbol_news_error (industry : Option String) (s : String)
    (o : YfOracle) (r : YfLoser) (hn : o.news = .error ())
    (h : yf_process_symbol industry s o = some r) : r.news = [] := by
  obtain ⟨info, price, news⟩ := o
  simp only at hn
  subst hn
  rcases info with u | oti
  · simp [yf_process_symbol] at h
  · rcases oti with _ | ti
    · simp [yf_process_symbol] at h
    · rcases price with _ | pd
      · simp only [yf_process_symbol] at h
        split_ifs at h
      · simp only [yf_process_symbol] at h
        split_ifs at h
        simp_all
        rw [← h]

/-- C5 amended: in both batch implementations a per-symbol exception
never aborts the batch and the result still reports success.  A
symbol whose info or price fetch fails (and, in
`simpleYfinanceService`, any per-symbol exception at all) is dropped
from the output; but in `yfinanceService` an exception raised by the
news fetch is caught by an inner handler and the symbol is kept with
an empty news list rather than dropped. -/
theorem batch_partial_failures (industry : Option String) (limit : ℕ)
    (symbols : List String) (oracle : String → YfOracle)
    (map : List (String × StockMeta)) (ifilt : Option String)
    (fetch : String → Except Unit SimpleFetched) :
    (∃ data, yf_get_top_losers industry limit (.ok symbols) oracle = .success data ∧
      ∀ s, ((oracle s).info = .error () ∨ (oracle s).price = none) →
        ∀ r ∈ data, r.symbol ≠ s) ∧
    (∀ s o r, YfOracle.news o = .error () → yf_process_symbol industry s o = some r →
      r.news = []) ∧
    (∃ data msg, simple_get_top_losers map ifilt limit fetch none = .success data msg ∧
      ∀ s, fetch s = .error () → ∀ r ∈ data, r.symbol ≠ s) := by
  refine ⟨⟨_, rfl, ?_⟩, ?_, ?_⟩
  · intro s hcond r hr heq
    have hr1 : r ∈ yf_sorted_losers industry symbols oracle := List.take_subset _ _ hr
    have hr2 : r ∈ yf_all_losers industry symbols oracle :=
      (List.perm_insertionSort _ _).subset hr1
    obtain ⟨s2, hmem, hps⟩ := List.mem_filterMap.mp hr2
    obtain ⟨hsym, ⟨ti, hti⟩, ⟨pd, hpd⟩⟩ := yf_process_symbol_some industry s2 (oracle s2) r hps
    have hss : s2 = s := hsym.symm.trans heq
    rcases hcond with hinfo | hprice
    · rw [hss, hinfo] at hti
      exact Except.noConfusion hti
    · rw [hss, hprice] at hpd
      exact Option.noConfusion hpd
  · intro s o r hn h
    exact yf_process_symbol_news_error industry s o r hn h
  · by_cases hsym : (simple_selected_symbols map ifilt).isEmpty
    · refine ⟨[], "No stocks found for the specified industry",
        by simp [simple_get_top_losers, hsym], ?_⟩
      intro s _ r hr
      simp at hr
    · refine ⟨(simple_sorted_results map ifilt limit fetch).take limit,
        "Retrieved top stock losers", by simp [simple_get_top_losers, hsym], ?_⟩
      intro s hfetch r hr heq
      have hr1 : r ∈ simple_sorted_results map ifilt limit fetch := List.take_subset _ _ hr
      have hr2 : r ∈ simple_results map ifilt limit fetch :=
        (List.perm_insertionSort _ _).subset hr1
      simp only [simple_results] at hr2
      obtain ⟨s2, hmem, hps⟩ := List.mem_filterMap.mp hr2
      obtain ⟨hsym2, f, hfok⟩ := simple_process_symbol_some map s2 (fetch s2) r hps
      have hss : s2 = s := hsym2.symm.trans heq
      rw [hss, hfetch] at hfok
      exact Except.noConfusion hfok

/-- Counterexample to C5 as stated: a batch run over the single symbol
`"AAA"` whose news fetch raises (`newsErrOracle.news = .error ()`).
The claim says such a symbol is dropped from the output, but the
record is kept - with an empty news list - and the batch still
succeeds. -/
theorem news_error_keeps_symbol :
    newsErrOracle.news = .error () ∧
    ∃ data, yf_get_top_losers none 5 (.ok ["AAA"]) (fun _ => newsErrOracle) =
        .success data ∧
      data.map YfLoser.symbol = ["AAA"] ∧ ∀ r ∈ data, r.news = [] := by
  refine ⟨rfl, _, rfl, by decide, ?_⟩
  intro r hr
  have hr1 : r ∈ yf_sorted_losers none ["AAA"] (fun _ => newsErrOracle) :=
    List.take_subset _ _ hr
  have hr2 : r ∈ yf_all_losers none ["AAA"] (fun _ => newsErrOracle) :=
    (List.perm_insertionSort _ _).subset hr1
  obtain ⟨s2, hmem, hps⟩ := List.mem_filterMap.mp hr2
  exact yf_process_symbol_news_error none s2 newsErrOracle r rfl hps

end MS
